import Mathlib

/-!
Verification development for the slidev-mcp-apps server (src/index.ts) and its
companion mini-app (src/mcp-app.ts).

The server registers three generation tools (generateSlide, generateSlidePDF,
generateSlidePPTX).  Each one stages a markdown file in a per-invocation
directory, invokes the external slidev renderer as a subprocess, collects the
renderer's output from the staging directory and packages it into an MCP tool
response.  The mini-app wires three button handlers to those tools.

The external world (subprocess exit status, contents of the staging directory
after the subprocess ran) is passed to each modelled handler as an explicit
outcome value; everything the handler itself computes (sorting, base64
encoding, JSON serialisation, path and URI construction, response packaging,
DOM state updates) is modelled directly from the source.
-/

/-- Content part of an MCP tool response: text, image or embedded resource,
mirroring the three part shapes constructed in src/index.ts. -/
inductive ContentPart where
  | text (text : String)
  | image (data : String) (mimeType : String)
  | resource (uri : String) (blob : String) (mimeType : String)
deriving DecidableEq, Repr

/-- Response envelope returned by a tool handler: its ordered content list. -/
structure ToolResponse where
  content : List ContentPart
deriving DecidableEq, Repr

/-- True exactly on image parts. -/
def isImagePart : ContentPart → Bool
  | ContentPart.image _ _ => true
  | _ => false

/-- True exactly on text parts. -/
def isTextPart : ContentPart → Bool
  | ContentPart.text _ => true
  | _ => false

/-- True exactly on resource parts. -/
def isResourcePart : ContentPart → Bool
  | ContentPart.resource _ _ _ => true
  | _ => false

/-- Model of JavaScript String.prototype.trim on the (ASCII) whitespace that
occurs here: drops whitespace characters from both ends. -/
def strTrim (s : String) : String :=
  ⟨((s.data.dropWhile Char.isWhitespace).reverse.dropWhile Char.isWhitespace).reverse⟩

/-- Model of JavaScript String.prototype.endsWith. -/
def strEndsWith (s suffixStr : String) : Bool :=
  suffixStr.data.isSuffixOf s.data

/-- The part of a filename before its first dot: model of the JavaScript
expression file.split(".")[0] used by the generateSlide sort comparator. -/
def beforeFirstDot (s : String) : List Char :=
  s.data.takeWhile (fun c => c ≠ '.')

/-- Numeric value of a list of decimal digit characters. -/
def digitsVal (ds : List Char) : Nat :=
  ds.foldl (fun n c => n * 10 + (c.toNat - 48)) 0

/-- Model of JavaScript parseInt on the nonnegative-integer-prefixed strings
produced by the renderer (file names such as "1", "10"): the value of the
leading run of decimal digits, or none (parseInt's NaN) when there is no
leading digit. -/
def parseIntLeading (cs : List Char) : Option Nat :=
  let ds := cs.takeWhile Char.isDigit
  if ds = [] then none else some (digitsVal ds)

/-- Sort key used by the generateSlide comparator
(a, b) => parseInt(a.split(".")[0]) - parseInt(b.split(".")[0]); the NaN
case (no leading digit) is collapsed to 0, which the theorems exclude by
hypothesis. -/
def pngKey (file : String) : Nat :=
  (parseIntLeading (beforeFirstDot file)).getD 0

/-- The base64 alphabet used by Node's Buffer.toString("base64"). -/
def b64Alphabet : List Char :=
  "ABCDEFGHIJKLMNOPQRSTUVWXYZabcdefghijklmnopqrstuvwxyz0123456789+/".data

/-- Character for a 6-bit group. -/
def b64Char (n : Nat) : Char := b64Alphabet.getD n '='

/-- Index of a character in the base64 alphabet. -/
def b64Value (c : Char) : Nat := b64Alphabet.indexOf c

/-- Standard base64 encoding (with padding) of a byte list, the encoding
performed by Buffer.toString("base64") in src/index.ts. -/
def base64EncodeList : List Nat → List Char
  | [] => []
  | [a] => [b64Char (a / 4), b64Char (a % 4 * 16), '=', '=']
  | [a, b] => [b64Char (a / 4), b64Char (a % 4 * 16 + b / 16), b64Char (b % 16 * 4), '=']
  | a :: b :: c :: rest =>
      b64Char (a / 4) :: b64Char (a % 4 * 16 + b / 16) :: b64Char (b % 16 * 4 + c / 64) ::
        b64Char (c % 64) :: base64EncodeList rest

/-- Base64 encoding as a string. -/
def base64Encode (bytes : List Nat) : String := ⟨base64EncodeList bytes⟩

/-- Standard base64 decoding (with padding) of a character list. -/
def base64DecodeList : List Char → List Nat
  | w :: x :: y :: z :: rest =>
      if y = '=' then [b64Value w * 4 + b64Value x / 16]
      else if z = '=' then
        [b64Value w * 4 + b64Value x / 16, b64Value x % 16 * 16 + b64Value y / 4]
      else
        (b64Value w * 4 + b64Value x / 16) :: (b64Value x % 16 * 16 + b64Value y / 4) ::
          (b64Value y % 4 * 64 + b64Value z) :: base64DecodeList rest
  | _ => []

/-- Base64 decoding of a string. -/
def base64Decode (s : String) : List Nat := base64DecodeList s.data

/-- Hexadecimal digit character (lowercase), for JSON control-character
escapes. -/
def hexDigit (n : Nat) : Char := "0123456789abcdef".data.getD n '0'

/-- Model of the escaping JSON.stringify applies to one character of a string
value: quote and backslash are backslash-escaped, the named control characters
get their short escapes, the remaining control characters get a
unicode escape, and every other character is copied verbatim. -/
def jsonEscapeChar (c : Char) : List Char :=
  if c = '"' then ['\\', '"']
  else if c = '\\' then ['\\', '\\']
  else if c = '\u0008' then ['\\', 'b']
  else if c = '\t' then ['\\', 't']
  else if c = '\n' then ['\\', 'n']
  else if c = '\u000c' then ['\\', 'f']
  else if c = '\r' then ['\\', 'r']
  else if c.toNat < 32 then ['\\', 'u', '0', '0', hexDigit (c.toNat / 16), hexDigit (c.toNat % 16)]
  else [c]

/-- A JSON string literal for s: quotes around the escaped characters. -/
def jsonQuote (s : String) : String :=
  ⟨'"' :: (s.data.flatMap jsonEscapeChar ++ ['"'])⟩

/-- Model of JSON.stringify applied to the two-field object
written in src/index.ts as the second text part: keys in
insertion order (markdown first, then theme). -/
def stringifyParams (markdown theme : String) : String :=
  "\x7b\"markdown\":" ++ jsonQuote markdown ++ ",\"theme\":" ++ jsonQuote theme ++ "\x7d"

/-- Model of path.join for the separator-free segments used by this server:
concatenation with a single "/" separator. -/
def pathJoin (a b : String) : String := a ++ "/" ++ b

/-- Model of Node's path.relative for the only case this server exercises:
the target path lies strictly below the base directory, so the result is the
target with the base directory and its trailing separator removed. -/
def pathRelative (base p : String) : String :=
  ⟨p.data.drop (base.data.length + 1)⟩

/-- The five slidev themes accepted by the z.enum input schema shared by all
three generation tools. -/
inductive Theme where
  | default
  | bricks
  | appleBasic
  | seriph
  | shibainu
deriving DecidableEq, Repr

/-- The string form of each theme, exactly the five z.enum literals. -/
def themeStr : Theme → String
  | Theme.default => "default"
  | Theme.bricks => "bricks"
  | Theme.appleBasic => "apple-basic"
  | Theme.seriph => "seriph"
  | Theme.shibainu => "shibainu"

/-- Model of the z.enum validation: a raw theme string is accepted exactly
when it is one of the five literals. -/
def parseTheme (s : String) : Option Theme :=
  if s = "default" then some Theme.default
  else if s = "bricks" then some Theme.bricks
  else if s = "apple-basic" then some Theme.appleBasic
  else if s = "seriph" then some Theme.seriph
  else if s = "shibainu" then some Theme.shibainu
  else none

/-- The export formats of the three generation tools. -/
inductive ExportFormat where
  | png
  | pdf
  | pptx
deriving DecidableEq, Repr

/-- Command-line format argument for each export format. -/
def formatStr : ExportFormat → String
  | ExportFormat.png => "png"
  | ExportFormat.pdf => "pdf"
  | ExportFormat.pptx => "pptx"

/-- The exact command string each handler passes to execSync:
"slidevPath" export --format fmt --theme theme "slides.md". -/
def slidevCommand (slidevPath : String) (fmt : ExportFormat) (theme : Theme) : String :=
  "\"" ++ slidevPath ++ "\" export --format " ++ formatStr fmt ++ " --theme "
    ++ themeStr theme ++ " \"slides.md\""

/-- Filesystem and subprocess effects a handler performs before collecting
output: the files it writes (path and content) and the command it executes. -/
structure ExecTrace where
  writtenFiles : List (String × String)
  command : String
deriving DecidableEq, Repr

/-- Outcome of the render step of generateSlide, supplied by the environment:
the subprocess threw (non-zero exit or spawn failure), the readdirSync of the
export directory threw (directory absent), or the export directory listing
with each file's bytes. -/
inductive RenderOutcome where
  | error (msg : String)
  | missingExportDir (msg : String)
  | files (entries : List (String × List Nat))
deriving DecidableEq, Repr

/-- Outcome of the render step of the two document tools: the subprocess or a
file operation threw, or the raw bytes of the output document. -/
inductive DocOutcome where
  | error (msg : String)
  | output (bytes : List Nat)
deriving DecidableEq, Repr

/-- The readdirSync-filter-sort pipeline of generateSlide: keep the entries
whose name ends in ".png" and sort them by the numeric value of the name's
leading integer (the comparator subtracts the two parseInt values, i.e.
ascending numeric order; List.mergeSort is stable, as required of
Array.prototype.sort). -/
def sortedPngFiles (entries : List (String × List Nat)) : List (String × List Nat) :=
  (entries.filter (fun e => strEndsWith e.1 ".png")).mergeSort
    (fun a b => pngKey a.1 ≤ pngKey b.1)

/-- Model of the generateSlide tool handler (src/index.ts lines 178-253).
projectDir models process.cwd(), executionId the randomUUID value, and
outcome the behaviour of the external renderer.  Returns the staging /
subprocess trace together with the response envelope. -/
def generateSlide (projectDir markdown : String) (theme : Theme) (executionId : String)
    (outcome : RenderOutcome) : ExecTrace × ToolResponse :=
  let workDir := pathJoin projectDir ".slidev-work"
  let executionDir := pathJoin workDir executionId
  let markdownPath := pathJoin executionDir "slides.md"
  let slidevPath := pathJoin (pathJoin (pathJoin projectDir "node_modules") ".bin") "slidev"
  let trace : ExecTrace :=
    { writtenFiles := [(markdownPath, markdown)]
      command := slidevCommand slidevPath ExportFormat.png theme }
  match outcome with
  | RenderOutcome.error msg =>
      (trace, { content := [ContentPart.text ("Failed to generate slides: " ++ msg)] })
  | RenderOutcome.missingExportDir msg =>
      (trace, { content := [ContentPart.text ("Failed to generate slides: " ++ msg)] })
  | RenderOutcome.files entries =>
      let contentArray := (sortedPngFiles entries).map
        (fun e => ContentPart.image (base64Encode e.2) "image/png")
      (trace,
       { content := ContentPart.text executionId ::
           ContentPart.text (stringifyParams markdown (themeStr theme)) :: contentArray })

/-- Model of the generateSlidePDF tool handler (src/index.ts lines 291-350):
same staging, pdf format, and a single resource part whose uri is the
file URL of the absolute output path. -/
def generateSlidePDF (projectDir markdown : String) (theme : Theme) (executionId : String)
    (outcome : DocOutcome) : ExecTrace × ToolResponse :=
  let workDir := pathJoin projectDir ".slidev-work"
  let executionDir := pathJoin workDir executionId
  let markdownPath := pathJoin executionDir "slides.md"
  let slidevPath := pathJoin (pathJoin (pathJoin projectDir "node_modules") ".bin") "slidev"
  let trace : ExecTrace :=
    { writtenFiles := [(markdownPath, markdown)]
      command := slidevCommand slidevPath ExportFormat.pdf theme }
  match outcome with
  | DocOutcome.error msg =>
      (trace, { content := [ContentPart.text ("Failed to generate PDF: " ++ msg)] })
  | DocOutcome.output bytes =>
      let pdfPath := pathJoin executionDir "slides-export.pdf"
      let fileUrl := "file://" ++ pdfPath
      (trace,
       { content := [ContentPart.resource fileUrl (base64Encode bytes) "application/pdf"] })

/-- Model of the generateSlidePPTX tool handler (src/index.ts lines 370-429):
same staging, pptx format, and a single resource part whose uri is the
file URL of the output path made relative to the work directory. -/
def generateSlidePPTX (projectDir markdown : String) (theme : Theme) (executionId : String)
    (outcome : DocOutcome) : ExecTrace × ToolResponse :=
  let workDir := pathJoin projectDir ".slidev-work"
  let executionDir := pathJoin workDir executionId
  let markdownPath := pathJoin executionDir "slides.md"
  let slidevPath := pathJoin (pathJoin (pathJoin projectDir "node_modules") ".bin") "slidev"
  let trace : ExecTrace :=
    { writtenFiles := [(markdownPath, markdown)]
      command := slidevCommand slidevPath ExportFormat.pptx theme }
  match outcome with
  | DocOutcome.error msg =>
      (trace, { content := [ContentPart.text ("Failed to generate PPTX: " ++ msg)] })
  | DocOutcome.output bytes =>
      let pptxPath := pathJoin executionDir "slides-export.pptx"
      let relativePptxPath := pathRelative workDir pptxPath
      let fileUrl := "file://" ++ relativePptxPath
      (trace,
       { content := [ContentPart.resource fileUrl (base64Encode bytes)
           "application/vnd.openxmlformats-officedocument.presentationml.presentation"] })

/-- Observable DOM state of the mini-app (src/mcp-app.ts): the values of its
input controls, the disabled flag and label of each trigger button, and the
text/markup of the two output containers. -/
structure AppState where
  markdownInputValue : String
  themeSelectValue : String
  currentExecutionId : Option String
  regenerateBtnDisabled : Bool
  regenerateBtnText : String
  generatePdfBtnDisabled : Bool
  generatePdfBtnText : String
  generatePptxBtnDisabled : Bool
  generatePptxBtnText : String
  slidesContainerContent : String
  pdfStatusContent : String
deriving DecidableEq, Repr

/-- Externally visible actions a mini-app handler performs: showing an alert
dialog or invoking a server tool through app.callServerTool. -/
inductive UIEvent where
  | alert (msg : String)
  | callServerTool (toolName markdown theme : String)
deriving DecidableEq, Repr

/-- Outcome of an awaited app.callServerTool invocation, supplied by the
environment: the call threw (transport failure), or it resolved with a
result whose isError flag and content list are given. -/
inductive CallOutcome where
  | thrown (msg : String)
  | result (isError : Bool) (content : List ContentPart)
deriving DecidableEq, Repr

/-- Text of content[0] when it is a text part, otherwise the literal
"Unknown error": model of the isError extraction shared by the three
handlers in src/mcp-app.ts. -/
def firstTextOrUnknown : List ContentPart → String
  | ContentPart.text t :: _ => t
  | _ => "Unknown error"

/-- First resource part of a content list, as (uri, blob, mimeType): model of
content.find(c => c.type === "resource"). -/
def findResource (content : List ContentPart) : Option (String × String × String) :=
  match content.find? isResourcePart with
  | some (ContentPart.resource u b m) => some (u, b, m)
  | _ => none

/-- Abstract rendering of a list of image parts as img elements with base64
data URLs, modelling the DOM nodes displaySlides appends. -/
def renderImages (images : List ContentPart) : String :=
  String.join (images.map (fun c =>
    match c with
    | ContentPart.image d _ => "<img src=\"data:image/png;base64," ++ d ++ "\">"
    | _ => ""))

/-- Model of displaySlides (src/mcp-app.ts lines 70-92): filters the result
content to image parts; with no images it replaces the container text with an
error marker, otherwise it appends one img element per image part in order. -/
def displaySlides (container : String) (content : List ContentPart) : String :=
  let images := content.filter isImagePart
  if images.length = 0 then "[ERROR] No images found"
  else container ++ renderImages images

/-- Abstract rendering of the copyable data-URL panel the two export handlers
append to the status element on success. -/
def dataUrlPanel (label dataUrl : String) : String :=
  "<div>" ++ label ++ "<input value=\"" ++ dataUrl ++ "\"><button>Select All</button></div>"

/-- Finally block of handleRegenerate: re-enables and relabels the trigger
button whatever state the try/catch produced. -/
def finallyRegenerate (r : AppState × List UIEvent) : AppState × List UIEvent :=
  ({ r.1 with regenerateBtnDisabled := false,
              regenerateBtnText := "Regenerate with Theme" }, r.2)

/-- Model of handleRegenerate (src/mcp-app.ts lines 95-136).  The empty-trim
guard returns before the button is touched and before any remote call; the
try/catch is unfolded into the three call outcomes, and the finally block
runs on every non-guard path. -/
def handleRegenerate (s : AppState) (call : CallOutcome) : AppState × List UIEvent :=
  let markdown := strTrim s.markdownInputValue
  let theme := s.themeSelectValue
  if markdown = "" then
    (s, [UIEvent.alert "Please populate markdown first"])
  else
    let s1 := { s with regenerateBtnDisabled := true,
                       regenerateBtnText := "Regenerating...",
                       slidesContainerContent := "Regenerating slides..." }
    let afterTry :=
      match call with
      | CallOutcome.thrown msg =>
          { s1 with slidesContainerContent := "Error: " ++ msg }
      | CallOutcome.result true content =>
          { s1 with slidesContainerContent := "Error: " ++ firstTextOrUnknown content }
      | CallOutcome.result false content =>
          { s1 with slidesContainerContent := displaySlides s1.slidesContainerContent content }
    finallyRegenerate (afterTry, [UIEvent.callServerTool "generateSlide" markdown theme])

/-- Finally block of handleGeneratePdf: re-enables and relabels the trigger
button whatever state the try/catch produced. -/
def finallyGeneratePdf (r : AppState × List UIEvent) : AppState × List UIEvent :=
  ({ r.1 with generatePdfBtnDisabled := false, generatePdfBtnText := "Generate PDF" }, r.2)

/-- Model of handleGeneratePdf (src/mcp-app.ts lines 139-244).  A missing
execution id alerts and returns before the button is touched; the empty-trim
guard inside the try returns (through finally) without a remote call; the
call outcomes mirror the catch block, which appends an exception line to the
status element. -/
def handleGeneratePdf (s : AppState) (call : CallOutcome) : AppState × List UIEvent :=
  match s.currentExecutionId with
  | none => (s, [UIEvent.alert "Please generate slides first"])
  | some _ =>
    let s1 := { s with generatePdfBtnDisabled := true,
                       generatePdfBtnText := "Generating PDF...",
                       pdfStatusContent := "Generating PDF..." }
    let markdown := strTrim s1.markdownInputValue
    let theme := s1.themeSelectValue
    finallyGeneratePdf <|
      if markdown = "" then
        ({ s1 with pdfStatusContent := "Please populate markdown first" }, ([] : List UIEvent))
      else
        let s2 := { s1 with pdfStatusContent :=
          "<strong>Generating PDF with theme: " ++ theme ++ "</strong>" }
        let ev := [UIEvent.callServerTool "generateSlidePDF" markdown theme]
        match call with
        | CallOutcome.thrown msg =>
            ({ s2 with pdfStatusContent :=
                s2.pdfStatusContent ++ "<br><strong>Exception:</strong> " ++ msg }, ev)
        | CallOutcome.result true content =>
            let errorText := firstTextOrUnknown content
            ({ s2 with pdfStatusContent :=
                s2.pdfStatusContent ++ "<br><strong>Error:</strong> " ++ errorText
                  ++ "<br><strong>Exception:</strong> " ++ errorText }, ev)
        | CallOutcome.result false content =>
            match findResource content with
            | none =>
                ({ s2 with pdfStatusContent := s2.pdfStatusContent
                    ++ "<br><strong>Exception:</strong> No PDF resource found in response" }, ev)
            | some (_, blob, _) =>
                if blob = "" then
                  ({ s2 with pdfStatusContent := s2.pdfStatusContent
                      ++ "<br><strong>Exception:</strong> Invalid PDF data" }, ev)
                else
                  let dataUrl := "data:application/pdf;base64," ++ blob
                  ({ s2 with pdfStatusContent := s2.pdfStatusContent
                      ++ dataUrlPanel "PDF Data URL (copy and paste into browser address bar):" dataUrl }, ev)

/-- Finally block of handleGeneratePptx: re-enables and relabels the trigger
button whatever state the try/catch produced. -/
def finallyGeneratePptx (r : AppState × List UIEvent) : AppState × List UIEvent :=
  ({ r.1 with generatePptxBtnDisabled := false, generatePptxBtnText := "Generate PPTX" }, r.2)

/-- Model of handleGeneratePptx (src/mcp-app.ts lines 247-345).  There is no
execution-id guard; the status element is overwritten before the try block and
appended to afterwards; the empty-trim guard inside the try returns (through
finally) without a remote call. -/
def handleGeneratePptx (s : AppState) (call : CallOutcome) : AppState × List UIEvent :=
  let s1 := { s with generatePptxBtnDisabled := true,
                     generatePptxBtnText := "Generating PPTX...",
                     pdfStatusContent :=
                       "<br><strong>Generating PPTX with theme: "
                         ++ s.themeSelectValue ++ "</strong>" }
  let markdown := strTrim s1.markdownInputValue
  let theme := s1.themeSelectValue
  finallyGeneratePptx <|
    if markdown = "" then
      ({ s1 with pdfStatusContent :=
          s1.pdfStatusContent ++ "<br>Please populate markdown first" }, ([] : List UIEvent))
    else
      let ev := [UIEvent.callServerTool "generateSlidePPTX" markdown theme]
      match call with
      | CallOutcome.thrown msg =>
          ({ s1 with pdfStatusContent :=
              s1.pdfStatusContent ++ "<br><strong>Exception:</strong> " ++ msg }, ev)
      | CallOutcome.result true content =>
          let errorText := firstTextOrUnknown content
          ({ s1 with pdfStatusContent :=
              s1.pdfStatusContent ++ "<br><strong>Error:</strong> " ++ errorText
                ++ "<br><strong>Exception:</strong> " ++ errorText }, ev)
      | CallOutcome.result false content =>
          match findResource content with
          | none =>
              ({ s1 with pdfStatusContent := s1.pdfStatusContent
                  ++ "<br><strong>Exception:</strong> No PPTX resource found in response" }, ev)
          | some (_, blob, _) =>
              if blob = "" then
                ({ s1 with pdfStatusContent := s1.pdfStatusContent
                    ++ "<br><strong>Exception:</strong> Invalid PPTX data" }, ev)
              else
                let dataUrl :=
                  "data:application/vnd.openxmlformats-officedocument.presentationml.presentation;base64,"
                    ++ blob
                ({ s1 with pdfStatusContent := s1.pdfStatusContent
                    ++ dataUrlPanel "PPTX Data URL (copy and paste into browser address bar):" dataUrl }, ev)

/-- True exactly on callServerTool events. -/
def isCallEvent : UIEvent → Bool
  | UIEvent.callServerTool _ _ _ => true
  | _ => false

theorem b64Value_b64Char : ∀ n, n < 64 → b64Value (b64Char n) = n := by decide

theorem b64Char_ne_pad : ∀ n, n < 64 → b64Char n ≠ '=' := by decide

theorem base64_decode_encode (bytes : List Nat) (h : ∀ b ∈ bytes, b < 256) :
    base64Decode (base64Encode bytes) = bytes := by
  show base64DecodeList (base64EncodeList bytes) = bytes
  induction bytes using base64EncodeList.induct with
  | case1 => simp [base64EncodeList, base64DecodeList]
  | case2 a =>
    have ha : a < 256 := h a (by simp)
    have h1 : a / 4 < 64 := by omega
    have h2 : a % 4 * 16 < 64 := by omega
    simp only [base64EncodeList, base64DecodeList, if_pos rfl]
    rw [b64Value_b64Char _ h1, b64Value_b64Char _ h2]
    simp
    omega
  | case3 a b =>
    have ha : a < 256 := h a (by simp)
    have hb : b < 256 := h b (by simp)
    have h1 : a / 4 < 64 := by omega
    have h2 : a % 4 * 16 + b / 16 < 64 := by omega
    have h3 : b % 16 * 4 < 64 := by omega
    simp [base64EncodeList, base64DecodeList, b64Char_ne_pad _ h3,
      b64Value_b64Char _ h1, b64Value_b64Char _ h2, b64Value_b64Char _ h3]
    constructor
    · omega
    · omega
  | case4 a b c rest ih =>
    have ha : a < 256 := h a (by simp)
    have hb : b < 256 := h b (by simp)
    have hc : c < 256 := h c (by simp)
    have h1 : a / 4 < 64 := by omega
    have h2 : a % 4 * 16 + b / 16 < 64 := by omega
    have h3 : b % 16 * 4 + c / 64 < 64 := by omega
    have h4 : c % 64 < 64 := by omega
    have hrest : base64DecodeList (base64EncodeList rest) = rest := by
      apply ih
      intro x hx
      exact h x (by simp [hx])
    simp [base64EncodeList, base64DecodeList, b64Char_ne_pad _ h3, b64Char_ne_pad _ h4,
      b64Value_b64Char _ h1, b64Value_b64Char _ h2, b64Value_b64Char _ h3,
      b64Value_b64Char _ h4, hrest]
    refine ⟨by omega, by omega, by omega⟩

theorem pathRelative_pathJoin (a b : String) : pathRelative a (pathJoin a b) = b := by
  unfold pathRelative pathJoin
  have h : (a ++ "/" ++ b).data = (a.data ++ ['/']) ++ b.data := by
    simp [String.data_append]
  rw [h]
  have h2 : (a.data ++ ['/']).length = a.data.length + 1 := by simp
  rw [← h2, List.drop_left]

theorem filter_isImagePart_map (l : List (String × List Nat)) :
    (l.map (fun e => ContentPart.image (base64Encode e.2) "image/png")).filter isImagePart
      = l.map (fun e => ContentPart.image (base64Encode e.2) "image/png") := by
  induction l with
  | nil => rfl
  | cons a l ih => simp [isImagePart, ih]

/-- C2: for every invocation of any of the three generation operations in
which the subprocess exits non-zero or the invocation throws (including the
absent-export-directory throw in generateSlide), the operation returns — it
does not throw past the operation boundary, every branch of the model yields
a response — with content that is exactly one text part carrying a failure
message and no image or resource parts. -/
theorem c2_error_path_single_text_part (p m id msg : String) (t : Theme) :
    ((generateSlide p m t id (RenderOutcome.error msg)).2.content
        = [ContentPart.text ("Failed to generate slides: " ++ msg)]) ∧
    ((generateSlide p m t id (RenderOutcome.missingExportDir msg)).2.content
        = [ContentPart.text ("Failed to generate slides: " ++ msg)]) ∧
    ((generateSlidePDF p m t id (DocOutcome.error msg)).2.content
        = [ContentPart.text ("Failed to generate PDF: " ++ msg)]) ∧
    ((generateSlidePPTX p m t id (DocOutcome.error msg)).2.content
        = [ContentPart.text ("Failed to generate PPTX: " ++ msg)]) :=
  ⟨rfl, rfl, rfl, rfl⟩

/-- C3: every successful generateSlide response is, in order, a text part
carrying the execution identifier, then a text part carrying the JSON
serialisation of the original markdown and theme, then one image part per
exported image in sorted order. -/
theorem c3_success_envelope_layout (p m id : String) (t : Theme)
    (entries : List (String × List Nat)) :
    (generateSlide p m t id (RenderOutcome.files entries)).2.content
      = ContentPart.text id
          :: ContentPart.text (stringifyParams m (themeStr t))
          :: (sortedPngFiles entries).map
               (fun e => ContentPart.image (base64Encode e.2) "image/png") := rfl

/-- C4: each successful generateSlidePDF / generateSlidePPTX response contains
exactly one resource part, and base64-decoding that part's blob gives back the
renderer's raw output bytes byte-for-byte. -/
theorem c4_document_resource_roundtrip (p m id : String) (t : Theme) (bytes : List Nat)
    (h : ∀ b ∈ bytes, b < 256) :
    ((generateSlidePDF p m t id (DocOutcome.output bytes)).2.content
        = [ContentPart.resource
            ("file://" ++ pathJoin (pathJoin (pathJoin p ".slidev-work") id) "slides-export.pdf")
            (base64Encode bytes) "application/pdf"]) ∧
    ((generateSlidePPTX p m t id (DocOutcome.output bytes)).2.content
        = [ContentPart.resource
            ("file://" ++ pathRelative (pathJoin p ".slidev-work")
              (pathJoin (pathJoin (pathJoin p ".slidev-work") id) "slides-export.pptx"))
            (base64Encode bytes)
            "application/vnd.openxmlformats-officedocument.presentationml.presentation"]) ∧
    base64Decode (base64Encode bytes) = bytes :=
  ⟨rfl, rfl, base64_decode_encode bytes h⟩

/-- C4 witness: the roundtrip theorem applied to the byte prefix of a PDF
file. -/
theorem c4_document_resource_roundtrip_witness :
    (∀ b ∈ [37, 80, 68, 70], b < 256) ∧
    ((generateSlidePDF "/app" "# Hi" Theme.default "id0"
        (DocOutcome.output [37, 80, 68, 70])).2.content
      = [ContentPart.resource
          ("file://" ++ pathJoin (pathJoin (pathJoin "/app" ".slidev-work") "id0")
            "slides-export.pdf")
          (base64Encode [37, 80, 68, 70]) "application/pdf"]) ∧
    base64Decode (base64Encode [37, 80, 68, 70]) = [37, 80, 68, 70] := by
  have h := c4_document_resource_roundtrip "/app" "# Hi" "id0" Theme.default
    [37, 80, 68, 70] (by decide)
  exact ⟨by decide, h.1, h.2.2⟩

/-- C5: the single resource part's locator is a file-style URI built from the
staging path, but the two document operations build it differently: the PDF
operation uses the absolute output path (rooted at the project directory),
while the PPTX operation uses the output path made relative to the
process-wide work directory, which is just executionId/slides-export.pptx. -/
theorem c5_locator_uri_construction (p m id : String) (t : Theme) (bytes : List Nat) :
    ((generateSlidePDF p m t id (DocOutcome.output bytes)).2.content
        = [ContentPart.resource
            ("file://" ++ (p ++ "/.slidev-work/" ++ id ++ "/slides-export.pdf"))
            (base64Encode bytes) "application/pdf"]) ∧
    ((generateSlidePPTX p m t id (DocOutcome.output bytes)).2.content
        = [ContentPart.resource ("file://" ++ (id ++ "/slides-export.pptx"))
            (base64Encode bytes)
            "application/vnd.openxmlformats-officedocument.presentationml.presentation"]) ∧
    pathRelative (pathJoin p ".slidev-work")
        (pathJoin (pathJoin (pathJoin p ".slidev-work") id) "slides-export.pptx")
      = id ++ "/slides-export.pptx" := by
  have hrel : pathRelative (pathJoin p ".slidev-work")
      (pathJoin (pathJoin (pathJoin p ".slidev-work") id) "slides-export.pptx")
      = id ++ "/slides-export.pptx" := by
    have hassoc : pathJoin (pathJoin (pathJoin p ".slidev-work") id) "slides-export.pptx"
        = pathJoin (pathJoin p ".slidev-work") (id ++ "/" ++ "slides-export.pptx") := by
      simp [pathJoin, String.append_assoc]
    rw [hassoc, pathRelative_pathJoin, String.append_assoc]
    simp
  refine ⟨?_, ?_, hrel⟩
  · show ToolResponse.content
      { content := [ContentPart.resource
          ("file://" ++ pathJoin (pathJoin (pathJoin p ".slidev-work") id) "slides-export.pdf")
          (base64Encode bytes) "application/pdf"] } = _
    simp [pathJoin, String.append_assoc]
  · show ToolResponse.content
      { content := [ContentPart.resource
          ("file://" ++ pathRelative (pathJoin p ".slidev-work")
            (pathJoin (pathJoin (pathJoin p ".slidev-work") id) "slides-export.pptx"))
          (base64Encode bytes)
          "application/vnd.openxmlformats-officedocument.presentationml.presentation"] } = _
    rw [hrel]

/-- C6 counterexample: a run in which the subprocess succeeded and the export
directory exists but holds no image files does NOT take the caught-error path:
generateSlide returns the normal two-text-part success envelope (identifier
and serialized parameters) rather than a single error text part. -/
theorem c6_counterexample :
    ((generateSlide "/app" "# Hello" Theme.default "id0"
        (RenderOutcome.files [])).2.content
      = [ContentPart.text "id0",
         ContentPart.text (stringifyParams "# Hello" "default")]) ∧
    ¬ ((generateSlide "/app" "# Hello" Theme.default "id0"
        (RenderOutcome.files [])).2.content.length = 1) := by
  constructor
  · simp [generateSlide, sortedPngFiles, themeStr]
  · simp [generateSlide, sortedPngFiles]

/-- C6 as amended: when the export directory is absent (the directory listing
throws) generateSlide takes the same caught-error path as a subprocess failure
and returns a single error text part; but when the directory exists and merely
contains no image files, generateSlide returns the success envelope — the two
metadata text parts with zero image parts — not an error. -/
theorem c6_amended_missing_dir_vs_no_images (p m id msg : String) (t : Theme)
    (entries : List (String × List Nat))
    (hempty : entries.filter (fun e => strEndsWith e.1 ".png") = []) :
    ((generateSlide p m t id (RenderOutcome.missingExportDir msg)).2.content
        = [ContentPart.text ("Failed to generate slides: " ++ msg)]) ∧
    ((generateSlide p m t id (RenderOutcome.files entries)).2.content
        = [ContentPart.text id, ContentPart.text (stringifyParams m (themeStr t))]) := by
  constructor
  · rfl
  · simp [generateSlide, sortedPngFiles, hempty]

/-- C6 witness: the amended theorem applied to a listing holding only a
non-image file. -/
theorem c6_amended_missing_dir_vs_no_images_witness :
    ([(("notes.txt" : String), ([10] : List Nat))].filter
        (fun e => strEndsWith e.1 ".png") = []) ∧
    ((generateSlide "/app" "# Hello" Theme.default "id0"
        (RenderOutcome.missingExportDir "ENOENT")).2.content
      = [ContentPart.text ("Failed to generate slides: " ++ "ENOENT")]) ∧
    ((generateSlide "/app" "# Hello" Theme.default "id0"
        (RenderOutcome.files [("notes.txt", [10])])).2.content
      = [ContentPart.text "id0",
         ContentPart.text (stringifyParams "# Hello" "default")]) := by
  have h := c6_amended_missing_dir_vs_no_images "/app" "# Hello" "id0" "ENOENT"
    Theme.default [("notes.txt", [10])] (by decide)
  exact ⟨by decide, h.1, h.2⟩

/-- C9: two successful generateSlide invocations with the same markdown,
theme and renderer output are structurally equivalent except for the first
text part, which carries the two different execution identifiers; nothing is
cached between the calls. -/
theorem c9_identical_inputs_fresh_identifier (p m id1 id2 : String) (t : Theme)
    (entries : List (String × List Nat)) (h : id1 ≠ id2) :
    ((generateSlide p m t id1 (RenderOutcome.files entries)).2.content.head?
        = some (ContentPart.text id1)) ∧
    ((generateSlide p m t id2 (RenderOutcome.files entries)).2.content.head?
        = some (ContentPart.text id2)) ∧
    ((generateSlide p m t id1 (RenderOutcome.files entries)).2.content.tail
        = (generateSlide p m t id2 (RenderOutcome.files entries)).2.content.tail) ∧
    ((generateSlide p m t id1 (RenderOutcome.files entries)).2.content.head?
        ≠ (generateSlide p m t id2 (RenderOutcome.files entries)).2.content.head?) := by
  refine ⟨rfl, rfl, rfl, ?_⟩
  simp [generateSlide]
  exact h

/-- C9 witness: the no-caching theorem applied to two concrete execution
identifiers. -/
theorem c9_identical_inputs_fresh_identifier_witness :
    ("id1" : String) ≠ "id2" ∧
    ((generateSlide "/app" "# Hi" Theme.seriph "id1"
        (RenderOutcome.files [("1.png", [0])])).2.content.head?
      = some (ContentPart.text "id1")) ∧
    ((generateSlide "/app" "# Hi" Theme.seriph "id1"
        (RenderOutcome.files [("1.png", [0])])).2.content.tail
      = (generateSlide "/app" "# Hi" Theme.seriph "id2"
          (RenderOutcome.files [("1.png", [0])])).2.content.tail) := by
  have h := c9_identical_inputs_fresh_identifier "/app" "# Hi" "id1" "id2" Theme.seriph
    [("1.png", [0])] (by decide)
  exact ⟨by decide, h.1, h.2.2.1⟩

/-- C1: when the export directory holds exactly the given entries, of which N
end in ".png" and each of those has an integer-prefixed name, the generateSlide
response carries exactly N image parts, one per png file, in ascending order
of the numeric value of the filename's leading integer (so "10.png" sorts
after "2.png", which lexical string order would misplace). -/
theorem c1_numeric_image_ordering (p m id : String) (t : Theme)
    (entries : List (String × List Nat))
    (h : ∀ e ∈ entries.filter (fun e => strEndsWith e.1 ".png"),
        (parseIntLeading (beforeFirstDot e.1)).isSome = true) :
    (((generateSlide p m t id (RenderOutcome.files entries)).2.content.filter
        isImagePart).length
      = (entries.filter (fun e => strEndsWith e.1 ".png")).length) ∧
    ((generateSlide p m t id (RenderOutcome.files entries)).2.content.filter isImagePart
      = (sortedPngFiles entries).map
          (fun e => ContentPart.image (base64Encode e.2) "image/png")) ∧
    (sortedPngFiles entries).Perm (entries.filter (fun e => strEndsWith e.1 ".png")) ∧
    (sortedPngFiles entries).Pairwise (fun a b => pngKey a.1 ≤ pngKey b.1) ∧
    (∀ e ∈ sortedPngFiles entries, (parseIntLeading (beforeFirstDot e.1)).isSome = true) := by
  have hcontent : (generateSlide p m t id (RenderOutcome.files entries)).2.content
      = ContentPart.text id :: ContentPart.text (stringifyParams m (themeStr t))
        :: (sortedPngFiles entries).map
            (fun e => ContentPart.image (base64Encode e.2) "image/png") := rfl
  have hB : (generateSlide p m t id (RenderOutcome.files entries)).2.content.filter isImagePart
      = (sortedPngFiles entries).map
          (fun e => ContentPart.image (base64Encode e.2) "image/png") := by
    rw [hcontent]
    simp only [List.filter_cons]
    simp [isImagePart, filter_isImagePart_map]
  have hperm : (sortedPngFiles entries).Perm
      (entries.filter (fun e => strEndsWith e.1 ".png")) := List.mergeSort_perm _ _
  have hA : ((generateSlide p m t id (RenderOutcome.files entries)).2.content.filter
      isImagePart).length = (entries.filter (fun e => strEndsWith e.1 ".png")).length := by
    rw [hB, List.length_map]
    exact hperm.length_eq
  have hD : (sortedPngFiles entries).Pairwise (fun a b => pngKey a.1 ≤ pngKey b.1) := by
    have htrans : ∀ a b c : String × List Nat,
        (decide (pngKey a.1 ≤ pngKey b.1)) = true →
        (decide (pngKey b.1 ≤ pngKey c.1)) = true →
        (decide (pngKey a.1 ≤ pngKey c.1)) = true := by
      intro a b c hab hbc
      simp only [decide_eq_true_eq] at hab hbc ⊢
      omega
    have htotal : ∀ a b : String × List Nat,
        ((decide (pngKey a.1 ≤ pngKey b.1)) || (decide (pngKey b.1 ≤ pngKey a.1))) = true := by
      intro a b
      simpa using Nat.le_total (pngKey a.1) (pngKey b.1)
    have hs := @List.sorted_mergeSort (String × List Nat)
      (fun a b => decide (pngKey a.1 ≤ pngKey b.1)) htrans htotal
      (entries.filter (fun e => strEndsWith e.1 ".png"))
    have hs' : (sortedPngFiles entries).Pairwise
        (fun a b => (decide (pngKey a.1 ≤ pngKey b.1)) = true) := hs
    exact hs'.imp (fun hab => by simpa using hab)
  refine ⟨hA, hB, hperm, hD, ?_⟩
  intro e he
  apply h
  exact hperm.mem_iff.mp he

/-- C1 witness: the ordering theorem applied to a directory listing in which
lexical order ("10.png" before "2.png") differs from numeric order. -/
theorem c1_numeric_image_ordering_witness :
    (∀ e ∈ [(("10.png" : String), ([0] : List Nat)), ("2.png", [1])].filter
        (fun e => strEndsWith e.1 ".png"),
      (parseIntLeading (beforeFirstDot e.1)).isSome = true) ∧
    (sortedPngFiles [("10.png", [0]), ("2.png", [1])]).Perm
      ([(("10.png" : String), ([0] : List Nat)), ("2.png", [1])].filter
        (fun e => strEndsWith e.1 ".png")) ∧
    (sortedPngFiles [("10.png", [0]), ("2.png", [1])]).Pairwise
      (fun a b => pngKey a.1 ≤ pngKey b.1) := by
  have h := c1_numeric_image_ordering "/app" "# Hi" "id0" Theme.default
    [("10.png", [0]), ("2.png", [1])] (by decide)
  exact ⟨by decide, h.2.2.1, h.2.2.2.1⟩

/-- C7: whenever the trimmed markdown of the mini-app is empty, none of the
three trigger handlers invokes a remote operation; each one surfaces an alert
or a status message instead. -/
theorem c7_empty_markdown_no_remote_call (s : AppState) (call : CallOutcome)
    (h : strTrim s.markdownInputValue = "") :
    ((handleRegenerate s call).2 = [UIEvent.alert "Please populate markdown first"]) ∧
    (∀ e ∈ (handleRegenerate s call).2, isCallEvent e = false) ∧
    ((handleGeneratePdf s call).2 = [UIEvent.alert "Please generate slides first"]
      ∨ ((handleGeneratePdf s call).2 = []
          ∧ (handleGeneratePdf s call).1.pdfStatusContent
              = "Please populate markdown first")) ∧
    (∀ e ∈ (handleGeneratePdf s call).2, isCallEvent e = false) ∧
    ((handleGeneratePptx s call).2 = []) ∧
    ((handleGeneratePptx s call).1.pdfStatusContent
      = "<br><strong>Generating PPTX with theme: " ++ s.themeSelectValue ++ "</strong>"
          ++ "<br>Please populate markdown first") ∧
    (∀ e ∈ (handleGeneratePptx s call).2, isCallEvent e = false) := by
  have hreg : (handleRegenerate s call)
      = (s, [UIEvent.alert "Please populate markdown first"]) := by
    unfold handleRegenerate
    rw [h]
    simp
  have hpptx : (handleGeneratePptx s call)
      = ({ s with generatePptxBtnDisabled := false,
                  generatePptxBtnText := "Generate PPTX",
                  pdfStatusContent :=
                    "<br><strong>Generating PPTX with theme: "
                      ++ s.themeSelectValue ++ "</strong>"
                      ++ "<br>Please populate markdown first" }, []) := by
    unfold handleGeneratePptx
    simp only [h]
    simp [finallyGeneratePptx]
  constructor
  · rw [hreg]
  constructor
  · rw [hreg]
    intro e he
    simp at he
    rw [he]
    rfl
  constructor
  · unfold handleGeneratePdf
    cases hexec : s.currentExecutionId with
    | none => left; rfl
    | some v =>
      right
      simp only [h]
      simp [finallyGeneratePdf]
  constructor
  · unfold handleGeneratePdf
    cases hexec : s.currentExecutionId with
    | none =>
      intro e he
      simp at he
      rw [he]
      rfl
    | some v =>
      simp only [h]
      simp [finallyGeneratePdf]
  constructor
  · rw [hpptx]
  constructor
  · rw [hpptx]
  · rw [hpptx]
    intro e he
    simp at he

/-- C7 witness: the guard theorem applied to a concrete state whose markdown
input is empty. -/
theorem c7_empty_markdown_no_remote_call_witness :
    (strTrim (AppState.mk "" "default" none false "Regenerate with Theme" false
        "Generate PDF" false "Generate PPTX" "" "").markdownInputValue = "") ∧
    ((handleRegenerate (AppState.mk "" "default" none false "Regenerate with Theme" false
        "Generate PDF" false "Generate PPTX" "" "") (CallOutcome.thrown "boom")).2
      = [UIEvent.alert "Please populate markdown first"]) ∧
    ((handleGeneratePptx (AppState.mk "" "default" none false "Regenerate with Theme" false
        "Generate PDF" false "Generate PPTX" "" "") (CallOutcome.thrown "boom")).2 = []) := by
  have h := c7_empty_markdown_no_remote_call
    (AppState.mk "" "default" none false "Regenerate with Theme" false
      "Generate PDF" false "Generate PPTX" "" "") (CallOutcome.thrown "boom") (by decide)
  exact ⟨by decide, h.1, h.2.2.2.2.1⟩

/-- C8: whatever the outcome of the remote call (success, flagged error
response, thrown error) and whichever guard path is taken, every mini-app
trigger handler finishes with its own trigger button enabled again — the UI
is never left with a permanently disabled trigger control. -/
theorem c8_trigger_always_reenabled (s : AppState) (call : CallOutcome)
    (h1 : s.regenerateBtnDisabled = false)
    (h2 : s.generatePdfBtnDisabled = false)
    (h3 : s.generatePptxBtnDisabled = false) :
    ((handleRegenerate s call).1.regenerateBtnDisabled = false) ∧
    ((handleGeneratePdf s call).1.generatePdfBtnDisabled = false) ∧
    ((handleGeneratePptx s call).1.generatePptxBtnDisabled = false) := by
  refine ⟨?_, ?_, ?_⟩
  · unfold handleRegenerate
    by_cases hm : strTrim s.markdownInputValue = ""
    · simp [hm, h1]
    · simp [hm, finallyRegenerate]
  · unfold handleGeneratePdf
    cases hexec : s.currentExecutionId with
    | none => exact h2
    | some v => rfl
  · rfl

/-- C8 witness: the re-enable theorem applied to a concrete enabled state and
a thrown transport error. -/
theorem c8_trigger_always_reenabled_witness :
    ((AppState.mk "# Hi" "default" (some "id0") false "Regenerate with Theme" false
        "Generate PDF" false "Generate PPTX" "" "").regenerateBtnDisabled = false) ∧
    ((handleRegenerate (AppState.mk "# Hi" "default" (some "id0") false
        "Regenerate with Theme" false "Generate PDF" false "Generate PPTX" "" "")
        (CallOutcome.thrown "boom")).1.regenerateBtnDisabled = false) ∧
    ((handleGeneratePdf (AppState.mk "# Hi" "default" (some "id0") false
        "Regenerate with Theme" false "Generate PDF" false "Generate PPTX" "" "")
        (CallOutcome.thrown "boom")).1.generatePdfBtnDisabled = false) ∧
    ((handleGeneratePptx (AppState.mk "# Hi" "default" (some "id0") false
        "Regenerate with Theme" false "Generate PDF" false "Generate PPTX" "" "")
        (CallOutcome.thrown "boom")).1.generatePptxBtnDisabled = false) := by
  have h := c8_trigger_always_reenabled
    (AppState.mk "# Hi" "default" (some "id0") false "Regenerate with Theme" false
      "Generate PDF" false "Generate PPTX" "" "")
    (CallOutcome.thrown "boom") rfl rfl rfl
  exact ⟨rfl, h.1, h.2.1, h.2.2⟩

/-- C10: a raw theme string passes the z.enum validation exactly when it is
one of the five literals, and for every accepted invocation the command
string interpolates only that validated theme: it is the fixed slidev export
template, independent of the markdown, which reaches the subprocess solely as
the content of the slides.md file written into the staging directory. -/
theorem c10_theme_whitelist_and_markdown_isolation (s : String) (t : Theme)
    (h : parseTheme s = some t) :
    (s = themeStr t) ∧
    (s = "default" ∨ s = "bricks" ∨ s = "apple-basic" ∨ s = "seriph" ∨ s = "shibainu") ∧
    (∀ t' : Theme, themeStr t' = "default" ∨ themeStr t' = "bricks"
        ∨ themeStr t' = "apple-basic" ∨ themeStr t' = "seriph" ∨ themeStr t' = "shibainu") ∧
    (∀ p id m : String, ∀ t' : Theme, ∀ o : RenderOutcome, ∀ o' : DocOutcome,
      ((generateSlide p m t' id o).1.command
          = slidevCommand (pathJoin (pathJoin (pathJoin p "node_modules") ".bin") "slidev")
              ExportFormat.png t') ∧
      ((generateSlidePDF p m t' id o').1.command
          = slidevCommand (pathJoin (pathJoin (pathJoin p "node_modules") ".bin") "slidev")
              ExportFormat.pdf t') ∧
      ((generateSlidePPTX p m t' id o').1.command
          = slidevCommand (pathJoin (pathJoin (pathJoin p "node_modules") ".bin") "slidev")
              ExportFormat.pptx t') ∧
      ((generateSlide p m t' id o).1.writtenFiles
          = [(pathJoin (pathJoin (pathJoin p ".slidev-work") id) "slides.md", m)]) ∧
      ((generateSlidePDF p m t' id o').1.writtenFiles
          = [(pathJoin (pathJoin (pathJoin p ".slidev-work") id) "slides.md", m)]) ∧
      ((generateSlidePPTX p m t' id o').1.writtenFiles
          = [(pathJoin (pathJoin (pathJoin p ".slidev-work") id) "slides.md", m)])) := by
  have htrace : ∀ p id m : String, ∀ t' : Theme, ∀ o : RenderOutcome, ∀ o' : DocOutcome,
      ((generateSlide p m t' id o).1.command
          = slidevCommand (pathJoin (pathJoin (pathJoin p "node_modules") ".bin") "slidev")
              ExportFormat.png t') ∧
      ((generateSlidePDF p m t' id o').1.command
          = slidevCommand (pathJoin (pathJoin (pathJoin p "node_modules") ".bin") "slidev")
              ExportFormat.pdf t') ∧
      ((generateSlidePPTX p m t' id o').1.command
          = slidevCommand (pathJoin (pathJoin (pathJoin p "node_modules") ".bin") "slidev")
              ExportFormat.pptx t') ∧
      ((generateSlide p m t' id o).1.writtenFiles
          = [(pathJoin (pathJoin (pathJoin p ".slidev-work") id) "slides.md", m)]) ∧
      ((generateSlidePDF p m t' id o').1.writtenFiles
          = [(pathJoin (pathJoin (pathJoin p ".slidev-work") id) "slides.md", m)]) ∧
      ((generateSlidePPTX p m t' id o').1.writtenFiles
          = [(pathJoin (pathJoin (pathJoin p ".slidev-work") id) "slides.md", m)]) := by
    intro p id m t' o o'
    cases o <;> cases o' <;> exact ⟨rfl, rfl, rfl, rfl, rfl, rfl⟩
  unfold parseTheme at h
  split_ifs at h with h1 h2 h3 h4 h5 <;>
    first
      | (cases h
         exact ⟨by simp_all [themeStr], by simp_all, fun t' => by cases t' <;> simp [themeStr],
           htrace⟩)
      | cases h

/-- C10 witness: the whitelist theorem applied to the accepted literal
"bricks". -/
theorem c10_theme_whitelist_and_markdown_isolation_witness :
    (parseTheme "bricks" = some Theme.bricks) ∧
    ("bricks" : String) = themeStr Theme.bricks ∧
    ((generateSlide "/app" "# Hi" Theme.bricks "id0" (RenderOutcome.error "boom")).1.command
      = slidevCommand (pathJoin (pathJoin (pathJoin "/app" "node_modules") ".bin") "slidev")
          ExportFormat.png Theme.bricks) ∧
    ((generateSlide "/app" "# Hi" Theme.bricks "id0" (RenderOutcome.error "boom")).1.writtenFiles
      = [(pathJoin (pathJoin (pathJoin "/app" ".slidev-work") "id0") "slides.md", "# Hi")]) := by
  have h := c10_theme_whitelist_and_markdown_isolation "bricks" Theme.bricks (by decide)
  have h4 := h.2.2.2 "/app" "id0" "# Hi" Theme.bricks (RenderOutcome.error "boom")
    (DocOutcome.error "boom")
  exact ⟨by decide, h.1, h4.1, h4.2.2.2.1⟩
